import Mathlib

/-!
Verification of the personal-finance calculation engine:
the cash-flow metrics calculator and the retirement projection
calculator with its wealth-timeline generator.

Numbers are modelled as exact rationals; the JavaScript value
Infinity, which arises only for the debt-to-equity ratio, is
modelled by the two-constructor type DER.  Rounding follows
the JavaScript function on rationals: round q is the floor of
q + 1/2 (halves round toward positive infinity).
-/

/-- JavaScript rounding to the nearest integer, halves toward positive infinity. -/
def jsRound (q : ℚ) : ℤ := ⌊q + 1/2⌋

/-- Rounding to two decimal places: round(q * 100) / 100. -/
def round2 (q : ℚ) : ℚ := (jsRound (q * 100) : ℚ) / 100

/-- A finite rational or the positive-infinity sentinel, as produced for
the debt-to-equity ratio. -/
inductive DER where
  | fin : ℚ → DER
  | inf : DER
deriving DecidableEq, Repr

/-- Rounding a DER value to two decimals: infinity passes through. -/
def roundDER : DER → DER
  | .fin q => .fin (round2 q)
  | .inf => .inf

/-- The four health tiers. -/
inductive HealthCategory where
  | Excellent | Good | Fair | Poor
deriving DecidableEq, Repr

/-- Input snapshot of the cash-flow calculator (numeric fields only;
identifier and timestamps are passed through unchanged and carry no
computational content). -/
structure CashFlow where
  monthlyIncome : ℚ
  expenses : ℚ
  debt : ℚ
  investments : ℚ
deriving DecidableEq, Repr

/-- Output of the cash-flow calculator: the input snapshot plus the five
derived fields. -/
structure CashFlowMetrics where
  cashFlow : CashFlow
  remainingCash : ℚ
  financialHealthScore : ℤ
  debtToEquityRatio : DER
  savingRatio : ℚ
  healthCategory : HealthCategory
deriving DecidableEq, Repr

/-- equity = monthlyIncome - debt; the ratio is debt / equity when equity
is positive, infinity when debt is positive with no positive equity, and
0 otherwise.  Mirrors the conditional expression in the source. -/
def debtToEquityRatioOf (cf : CashFlow) : DER :=
  if 0 < cf.monthlyIncome - cf.debt then .fin (cf.debt / (cf.monthlyIncome - cf.debt))
  else if 0 < cf.debt then .inf
  else .fin 0

/-- The deRatio factor: 1 / (1 + ratio) when the ratio is positive, else 1.
On the infinite ratio JavaScript evaluates 1 / (1 + Infinity) = 0. -/
def deRatioOf : DER → ℚ
  | .fin q => if 0 < q then 1 / (1 + q) else 1
  | .inf => 0

/-- savingScore: the saving ratio against the 20 percent target, scaled
to 40 points and capped. -/
def savingScoreOf (cf : CashFlow) : ℚ :=
  min (cf.investments / cf.monthlyIncome / (0.2 : ℚ) * 40) 40

/-- cashScore: the remaining-cash ratio scaled to 35 points and clamped
to both sides (it can be negative when over-allocated). -/
def cashScoreOf (cf : CashFlow) : ℚ :=
  max (min ((cf.monthlyIncome - (cf.expenses + cf.debt + cf.investments)) / cf.monthlyIncome
    * 100 * (0.35 : ℚ)) 35) (-35)

/-- deScore: the deRatio factor scaled to 25 points and capped. -/
def deScoreOf (cf : CashFlow) : ℚ :=
  min (deRatioOf (debtToEquityRatioOf cf) * 25) 25

/-- The unrounded, clamped financial health score computed in the
monthlyIncome > 0 branch of the source: savingScore + cashScore + deScore,
clamped to the interval from 0 to 100. -/
def rawHealthScore (cf : CashFlow) : ℚ :=
  max 0 (min 100 (savingScoreOf cf + cashScoreOf cf + deScoreOf cf))

/-- Category thresholds applied by the source to the unrounded clamped
score. -/
def healthCategoryOf (s : ℚ) : HealthCategory :=
  if 80 ≤ s then .Excellent
  else if 60 ≤ s then .Good
  else if 40 ≤ s then .Fair
  else .Poor

/-- The cash-flow calculator.  Mirrors calculateCashFlowMetrics in the
source: a short-circuit branch for monthlyIncome less or equal 0, then the
derived metrics with the score and ratios rounded only in the output. -/
def calculateCashFlowMetrics (cashFlow : CashFlow) : CashFlowMetrics :=
  if cashFlow.monthlyIncome ≤ 0 then
    { cashFlow := cashFlow
      remainingCash := -cashFlow.expenses - cashFlow.debt - cashFlow.investments
      financialHealthScore := 0
      debtToEquityRatio := .fin 0
      savingRatio := 0
      healthCategory := .Poor }
  else
    { cashFlow := cashFlow
      remainingCash := cashFlow.monthlyIncome - (cashFlow.expenses + cashFlow.debt + cashFlow.investments)
      financialHealthScore := jsRound (rawHealthScore cashFlow)
      debtToEquityRatio := roundDER (debtToEquityRatioOf cashFlow)
      savingRatio := round2 (cashFlow.investments / cashFlow.monthlyIncome)
      healthCategory := healthCategoryOf (rawHealthScore cashFlow) }

/- ------------------------------------------------------------------ -/
/- Retirement calculator                                              -/
/- ------------------------------------------------------------------ -/

/-- Thailand average inflation rate, a fixed constant in the source. -/
def DEFAULT_INFLATION_RATE : ℚ := 0.04

/-- Input plan of the retirement calculator.  Ages are integer years
(the spec fixes currentAge, retirementAge and lifeExpectancy as integer
years); currency and rate fields are rationals.  Identifier, owner and
timestamps carry no computational content and are omitted. -/
structure RetirementPlan where
  currentAge : ℤ
  retirementAge : ℤ
  lifeExpectancy : ℤ
  monthlySavings : ℚ
  monthlyExpenses : ℚ
  expectedReturnRate : ℚ
  inflationAdjusted : Bool
  stocks : ℚ
  funds : ℚ
  cash : ℚ
deriving DecidableEq, Repr

inductive Phase where
  | accumulation | withdrawal
deriving DecidableEq, Repr

inductive GapStatus where
  | surplus | shortfall
deriving DecidableEq, Repr

/-- One point of the wealth timeline; wealth is the rounded emitted value. -/
structure WealthDataPoint where
  age : ℤ
  year : ℤ
  wealth : ℤ
  phase : Phase
deriving DecidableEq, Repr

/-- Output of the retirement calculator: the input plan plus the derived
fields and the timeline. -/
structure RetirementProjection where
  plan : RetirementPlan
  yearsToRetirement : ℤ
  retirementYears : ℤ
  totalInvested : ℚ
  projectedWealth : ℚ
  targetWealth : ℚ
  gap : ℚ
  gapStatus : GapStatus
  stockPercentage : ℚ
  fundPercentage : ℚ
  cashPercentage : ℚ
  wealthTimeline : List WealthDataPoint
deriving DecidableEq, Repr

def yearsToRetirementOf (p : RetirementPlan) : ℤ := p.retirementAge - p.currentAge

def retirementYearsOf (p : RetirementPlan) : ℤ := p.lifeExpectancy - p.retirementAge

/-- monthsToRetirement = yearsToRetirement * 12, as a natural number
exponent (the calculator is only invoked after validation, where
yearsToRetirement is positive). -/
def monthsToRetirementOf (p : RetirementPlan) : ℕ := (yearsToRetirementOf p).toNat * 12

def totalInvestedOf (p : RetirementPlan) : ℚ :=
  p.monthlySavings * (monthsToRetirementOf p : ℚ)

/-- monthlyRate = expectedReturnRate / 100 / 12. -/
def monthlyRateOf (p : RetirementPlan) : ℚ := p.expectedReturnRate / 100 / 12

/-- Future value of an annuity due after monthsElapsed months, exactly as
written in the source: 0 at zero months; contributions without growth at
zero rate; otherwise PMT * ((1+r)^n - 1)/r * (1+r).  Used both for
projectedWealth (at the full horizon) and for each accumulation-phase
timeline point. -/
def accumulationWealth (monthlySavings monthlyRate : ℚ) (monthsElapsed : ℕ) : ℚ :=
  if monthsElapsed = 0 then 0
  else if monthlyRate = 0 then monthlySavings * (monthsElapsed : ℚ)
  else monthlySavings * (((1 + monthlyRate) ^ monthsElapsed - 1) / monthlyRate) * (1 + monthlyRate)

def projectedWealthOf (p : RetirementPlan) : ℚ :=
  if monthlyRateOf p = 0 then totalInvestedOf p
  else p.monthlySavings *
      (((1 + monthlyRateOf p) ^ monthsToRetirementOf p - 1) / monthlyRateOf p) *
      (1 + monthlyRateOf p)

/-- targetWealth: annualExpenses * retirementYears, replaced by the
growing-annuity factor at the fixed 4 percent inflation rate when
inflationAdjusted is set. -/
def targetWealthOf (p : RetirementPlan) : ℚ :=
  if p.inflationAdjusted then
    (p.monthlyExpenses * 12) *
      (((1 + DEFAULT_INFLATION_RATE) ^ (retirementYearsOf p).toNat - 1) / DEFAULT_INFLATION_RATE)
  else (p.monthlyExpenses * 12) * ((retirementYearsOf p : ℤ) : ℚ)

/-- Yearly expenses in the withdrawal phase: the flat annual expenses,
scaled by (1.04)^yearsIntoRetirement when inflation adjustment is on. -/
def yearlyExpensesAt (annualExpenses : ℚ) (inflationAdjusted : Bool) (yearsIntoRetirement : ℕ) : ℚ :=
  if inflationAdjusted then
    annualExpenses * (1 + DEFAULT_INFLATION_RATE) ^ yearsIntoRetirement
  else annualExpenses

/-- The running withdrawal-phase wealth after j years of retirement,
seeded (at j = 0) from the last accumulation value.  Each step compounds
the previous CLAMPED value at the annual rate, subtracts the yearly
expenses, and clamps at 0, exactly in the order of the source loop. -/
def withdrawalWealth (seed annualRate annualExpenses : ℚ) (inflationAdjusted : Bool) : ℕ → ℚ
  | 0 => seed
  | j + 1 =>
      max 0 (withdrawalWealth seed annualRate annualExpenses inflationAdjusted j * (1 + annualRate)
        - yearlyExpensesAt annualExpenses inflationAdjusted (j + 1))

/-- The accumulation-phase timeline point at yearsElapsed = i:
age = currentAge + i, monthsElapsed = i * 12, rounded wealth. -/
def accPoint (currentAge : ℤ) (monthlySavings monthlyRate : ℚ) (currentYear : ℤ)
    (i : ℕ) : WealthDataPoint :=
  { age := currentAge + (i : ℤ)
    year := currentYear + (i : ℤ)
    wealth := jsRound (accumulationWealth monthlySavings monthlyRate (i * 12))
    phase := .accumulation }

/-- The withdrawal-phase timeline point at yearsIntoRetirement = j + 1:
age = retirementAge + j + 1, rounded running wealth. -/
def wPoint (currentAge retirementAge : ℤ) (seed annualRate annualExpenses : ℚ)
    (inflationAdjusted : Bool) (currentYear : ℤ) (j : ℕ) : WealthDataPoint :=
  { age := retirementAge + ((j : ℤ) + 1)
    year := currentYear + (retirementAge + ((j : ℤ) + 1) - currentAge)
    wealth := jsRound (withdrawalWealth seed annualRate annualExpenses inflationAdjusted (j + 1))
    phase := .withdrawal }

/-- The timeline generator.  Accumulation points for each age from
currentAge to retirementAge (each computed by the closed annuity formula
at the elapsed months), then withdrawal points for each age from
retirementAge + 1 to lifeExpectancy driven by the clamped recurrence
seeded from the last (unrounded) accumulation value.  Emitted wealth is
rounded; the running value is not. -/
def generateWealthTimeline (currentAge retirementAge lifeExpectancy : ℤ)
    (monthlySavings monthlyRate monthlyExpenses : ℚ)
    (inflationAdjusted : Bool) (currentYear : ℤ) : List WealthDataPoint :=
  (List.range ((retirementAge - currentAge).toNat + 1)).map
      (accPoint currentAge monthlySavings monthlyRate currentYear) ++
    (List.range ((lifeExpectancy - retirementAge).toNat)).map
      (wPoint currentAge retirementAge
        (accumulationWealth monthlySavings monthlyRate ((retirementAge - currentAge).toNat * 12))
        (monthlyRate * 12) (monthlyExpenses * 12) inflationAdjusted currentYear)

/-- The seed of the withdrawal recurrence: the accumulation value at the
retirement age, taken unrounded. -/
def retirementSeed (p : RetirementPlan) : ℚ :=
  accumulationWealth p.monthlySavings (monthlyRateOf p) ((yearsToRetirementOf p).toNat * 12)

/-- gap = projectedWealth - targetWealth. -/
def gapOf (p : RetirementPlan) : ℚ := projectedWealthOf p - targetWealthOf p

/-- totalAllocation = stocks + funds + cash. -/
def totalAllocationOf (p : RetirementPlan) : ℚ := p.stocks + p.funds + p.cash

/-- The projection record assembled in the validated branch of the source. -/
def mkProjection (p : RetirementPlan) (currentYear : ℤ) : RetirementProjection :=
  { plan := p
    yearsToRetirement := yearsToRetirementOf p
    retirementYears := retirementYearsOf p
    totalInvested := totalInvestedOf p
    projectedWealth := projectedWealthOf p
    targetWealth := targetWealthOf p
    gap := gapOf p
    gapStatus := if 0 ≤ gapOf p then .surplus else .shortfall
    stockPercentage := if 0 < totalAllocationOf p then p.stocks / totalAllocationOf p * 100 else 0
    fundPercentage := if 0 < totalAllocationOf p then p.funds / totalAllocationOf p * 100 else 0
    cashPercentage := if 0 < totalAllocationOf p then p.cash / totalAllocationOf p * 100 else 0
    wealthTimeline := generateWealthTimeline p.currentAge p.retirementAge p.lifeExpectancy
      p.monthlySavings (monthlyRateOf p) p.monthlyExpenses p.inflationAdjusted currentYear }

/-- The retirement calculator: the two validation guards, then the
assembled projection.  The current calendar year is passed explicitly
(the source reads it from the wall clock once per call). -/
def calculateRetirementProjection (plan : RetirementPlan) (currentYear : ℤ) :
    Except String RetirementProjection :=
  if plan.retirementAge ≤ plan.currentAge then
    .error "Retirement age must be greater than current age"
  else if plan.lifeExpectancy ≤ plan.retirementAge then
    .error "Life expectancy must be greater than retirement age"
  else .ok (mkProjection plan currentYear)

/-- A sample valid plan used to instantiate theorems with hypotheses. -/
def samplePlan : RetirementPlan :=
  { currentAge := 30
    retirementAge := 35
    lifeExpectancy := 40
    monthlySavings := 1000
    monthlyExpenses := 2000
    expectedReturnRate := 0
    inflationAdjusted := false
    stocks := 0
    funds := 0
    cash := 0 }

/-- A sample cash-flow snapshot with positive income. -/
def sampleCash : CashFlow :=
  { monthlyIncome := 5000, expenses := 2000, debt := 500, investments := 1000 }

/-- A sample cash-flow snapshot with income 0, for the short-circuit branch. -/
def sampleZeroIncome : CashFlow :=
  { monthlyIncome := 0, expenses := 2000, debt := 500, investments := 1000 }

/- ------------------------------------------------------------------ -/
/- Helper lemmas                                                      -/
/- ------------------------------------------------------------------ -/

theorem calcProj_ok_iff (p : RetirementPlan) (y : ℤ) (pr : RetirementProjection) :
    calculateRetirementProjection p y = Except.ok pr ↔
      (p.currentAge < p.retirementAge ∧ p.retirementAge < p.lifeExpectancy ∧
        pr = mkProjection p y) := by
  unfold calculateRetirementProjection
  by_cases h1 : p.retirementAge ≤ p.currentAge
  · rw [if_pos h1]
    constructor
    · intro h; exact Except.noConfusion h
    · rintro ⟨a, _, _⟩; omega
  · rw [if_neg h1]
    by_cases h2 : p.lifeExpectancy ≤ p.retirementAge
    · rw [if_pos h2]
      constructor
      · intro h; exact Except.noConfusion h
      · rintro ⟨_, b, _⟩; omega
    · rw [if_neg h2]
      constructor
      · intro h
        exact ⟨by omega, by omega, (Except.ok.inj h).symm⟩
      · rintro ⟨_, _, rfl⟩; rfl

theorem jsRound_nonneg {q : ℚ} (h : 0 ≤ q) : 0 ≤ jsRound q :=
  Int.le_floor.mpr (by push_cast; linarith)

theorem jsRound_le_100 {q : ℚ} (h : q ≤ 100) : jsRound q ≤ 100 := by
  unfold jsRound
  have h1 : ⌊q + 1/2⌋ ≤ ⌊(100 : ℚ) + 1/2⌋ := Int.floor_mono (by linarith)
  have h2 : ⌊(100 : ℚ) + 1/2⌋ = 100 := by norm_num
  omega

theorem accumulationWealth_eq_sum (ms mr : ℚ) (n : ℕ) :
    accumulationWealth ms mr n = ms * (∑ k in Finset.range n, (1 + mr) ^ k) * (1 + mr) := by
  unfold accumulationWealth
  rcases eq_or_ne n 0 with h0 | h0
  · subst h0; simp
  · rw [if_neg h0]
    rcases eq_or_ne mr 0 with hr | hr
    · subst hr; simp
    · have hx : (1 + mr) ≠ 1 := fun hx => hr (by linarith [hx.symm.le, hx.le])
      rw [if_neg hr, geom_sum_eq hx n]
      have hm : (1 + mr) - 1 = mr := by ring
      rw [hm]

theorem accumulationWealth_mono (ms mr : ℚ) (hms : 0 ≤ ms) (hmr : -1 < mr)
    {m n : ℕ} (h : m ≤ n) :
    accumulationWealth ms mr m ≤ accumulationWealth ms mr n := by
  rw [accumulationWealth_eq_sum, accumulationWealth_eq_sum]
  have hx : (0 : ℚ) < 1 + mr := by linarith
  have hsum : (∑ k in Finset.range m, (1 + mr) ^ k) ≤ ∑ k in Finset.range n, (1 + mr) ^ k :=
    Finset.sum_le_sum_of_subset_of_nonneg (Finset.range_subset.mpr h)
      (fun k _ _ => (pow_pos hx k).le)
  exact mul_le_mul_of_nonneg_right (mul_le_mul_of_nonneg_left hsum hms) hx.le

theorem yearlyExpensesAt_nonneg {aE : ℚ} (h : 0 ≤ aE) (infl : Bool) (k : ℕ) :
    0 ≤ yearlyExpensesAt aE infl k := by
  unfold yearlyExpensesAt
  split
  · exact mul_nonneg h (pow_nonneg (by norm_num [DEFAULT_INFLATION_RATE]) k)
  · exact h

theorem withdrawalWealth_succ_nonneg (seed rate aE : ℚ) (infl : Bool) (j : ℕ) :
    0 ≤ withdrawalWealth seed rate aE infl (j + 1) := by
  rw [withdrawalWealth]
  exact le_max_left 0 _

theorem withdrawalWealth_absorbing_aux (seed rate aE : ℚ) (infl : Bool) (haE : 0 ≤ aE)
    {j k : ℕ} (hjk : j ≤ k) (h0 : withdrawalWealth seed rate aE infl j = 0) :
    withdrawalWealth seed rate aE infl k = 0 := by
  induction k, hjk using Nat.le_induction with
  | base => exact h0
  | succ n hn ih =>
      rw [withdrawalWealth, ih, zero_mul, zero_sub]
      exact max_eq_left (neg_nonpos.mpr (yearlyExpensesAt_nonneg haE infl (n + 1)))

/- ------------------------------------------------------------------ -/
/- Claims                                                             -/
/- ------------------------------------------------------------------ -/

/-- Claim C1: calculateProjection raises a validation error if and only if
currentAge is at least retirementAge or retirementAge is at least
lifeExpectancy; every plan with currentAge < retirementAge < lifeExpectancy
returns a projection without raising, regardless of every other numeric
field. -/
theorem c1_validation_iff (p : RetirementPlan) (y : ℤ) :
    ((∃ e, calculateRetirementProjection p y = Except.error e) ↔
      (p.retirementAge ≤ p.currentAge ∨ p.lifeExpectancy ≤ p.retirementAge)) ∧
    ((∃ pr, calculateRetirementProjection p y = Except.ok pr) ↔
      (p.currentAge < p.retirementAge ∧ p.retirementAge < p.lifeExpectancy)) := by
  unfold calculateRetirementProjection
  by_cases h1 : p.retirementAge ≤ p.currentAge
  · rw [if_pos h1]
    refine ⟨⟨fun _ => Or.inl h1, fun _ => ⟨_, rfl⟩⟩, ?_, ?_⟩
    · rintro ⟨pr, hpr⟩; exact Except.noConfusion hpr
    · rintro ⟨a, _⟩; omega
  · rw [if_neg h1]
    by_cases h2 : p.lifeExpectancy ≤ p.retirementAge
    · rw [if_pos h2]
      refine ⟨⟨fun _ => Or.inr h2, fun _ => ⟨_, rfl⟩⟩, ?_, ?_⟩
      · rintro ⟨pr, hpr⟩; exact Except.noConfusion hpr
      · rintro ⟨_, b⟩; omega
    · rw [if_neg h2]
      refine ⟨⟨?_, ?_⟩, fun _ => ⟨by omega, by omega⟩, fun _ => ⟨_, rfl⟩⟩
      · rintro ⟨e, he⟩; exact Except.noConfusion he
      · rintro (h | h)
        · exact absurd h h1
        · exact absurd h h2

/-- Claim C2: for every valid plan, with monthlyRate = expectedReturnRate
divided by 100 and by 12: at zero monthly rate projectedWealth equals
totalInvested, which equals monthlySavings times 12 times yearsToRetirement;
at a nonzero monthly rate projectedWealth is the annuity-due future value
over monthsToRetirement = yearsToRetirement times 12 months. -/
theorem c2_projected_wealth (p : RetirementPlan) (y : ℤ) (pr : RetirementProjection)
    (h : calculateRetirementProjection p y = Except.ok pr) :
    (monthlyRateOf p = 0 →
      pr.projectedWealth = pr.totalInvested ∧
      pr.totalInvested = p.monthlySavings * 12 * ((p.retirementAge - p.currentAge : ℤ) : ℚ)) ∧
    (monthlyRateOf p ≠ 0 →
      pr.projectedWealth =
        p.monthlySavings *
          (((1 + monthlyRateOf p) ^ ((p.retirementAge - p.currentAge).toNat * 12) - 1) /
              monthlyRateOf p) *
          (1 + monthlyRateOf p)) := by
  obtain ⟨h1, h2, rfl⟩ := (calcProj_ok_iff p y pr).mp h
  constructor
  · intro hr
    constructor
    · show projectedWealthOf p = totalInvestedOf p
      rw [projectedWealthOf, if_pos hr]
    · show totalInvestedOf p = _
      rw [totalInvestedOf, monthsToRetirementOf, yearsToRetirementOf]
      have hY : (((p.retirementAge - p.currentAge).toNat : ℚ)) =
          ((p.retirementAge - p.currentAge : ℤ) : ℚ) := by
        have hz : (((p.retirementAge - p.currentAge).toNat : ℤ)) =
            p.retirementAge - p.currentAge := by omega
        exact_mod_cast hz
      push_cast
      rw [hY]
      push_cast
      ring
  · intro hr
    show projectedWealthOf p = _
    rw [projectedWealthOf, if_neg hr, monthsToRetirementOf, yearsToRetirementOf]

/-- Claim C8: targetWealth is annualExpenses times retirementYears when
inflation adjustment is off, and annualExpenses times the growing-annuity
factor at the fixed 4 percent rate when it is on; with nonnegative
monthlyExpenses the adjusted figure dominates the flat one. -/
theorem c8_target_wealth (p : RetirementPlan) (y : ℤ) (pr : RetirementProjection)
    (h : calculateRetirementProjection p y = Except.ok pr) :
    (p.inflationAdjusted = false →
      pr.targetWealth = p.monthlyExpenses * 12 * ((p.lifeExpectancy - p.retirementAge : ℤ) : ℚ)) ∧
    (p.inflationAdjusted = true →
      pr.targetWealth = p.monthlyExpenses * 12 *
        (((1 + (0.04 : ℚ)) ^ (p.lifeExpectancy - p.retirementAge).toNat - 1) / (0.04 : ℚ))) ∧
    (0 ≤ p.monthlyExpenses →
      p.monthlyExpenses * 12 * ((p.lifeExpectancy - p.retirementAge : ℤ) : ℚ) ≤
        p.monthlyExpenses * 12 *
          (((1 + (0.04 : ℚ)) ^ (p.lifeExpectancy - p.retirementAge).toNat - 1) / (0.04 : ℚ))) := by
  obtain ⟨h1, h2, rfl⟩ := (calcProj_ok_iff p y pr).mp h
  refine ⟨?_, ?_, ?_⟩
  · intro hi
    show targetWealthOf p = _
    rw [targetWealthOf, hi]
    simp [retirementYearsOf]
  · intro hi
    show targetWealthOf p = _
    rw [targetWealthOf, hi]
    simp [retirementYearsOf, DEFAULT_INFLATION_RATE]
  · intro hme
    have hz : (((p.lifeExpectancy - p.retirementAge).toNat : ℤ)) =
        p.lifeExpectancy - p.retirementAge := by omega
    have hR : ((p.lifeExpectancy - p.retirementAge : ℤ) : ℚ) =
        (((p.lifeExpectancy - p.retirementAge).toNat : ℕ) : ℚ) := by exact_mod_cast hz.symm
    rw [hR]
    have hgeom : ((1 + (0.04 : ℚ)) ^ (p.lifeExpectancy - p.retirementAge).toNat - 1) / (0.04 : ℚ) =
        ∑ k in Finset.range (p.lifeExpectancy - p.retirementAge).toNat, (1 + (0.04 : ℚ)) ^ k := by
      rw [geom_sum_eq (by norm_num) ((p.lifeExpectancy - p.retirementAge).toNat)]
      norm_num
    have hsum : (((p.lifeExpectancy - p.retirementAge).toNat : ℚ)) ≤
        ∑ k in Finset.range (p.lifeExpectancy - p.retirementAge).toNat, (1 + (0.04 : ℚ)) ^ k := by
      calc (((p.lifeExpectancy - p.retirementAge).toNat : ℚ))
          = ∑ _k in Finset.range (p.lifeExpectancy - p.retirementAge).toNat, (1 : ℚ) := by simp
        _ ≤ _ := Finset.sum_le_sum (fun k _ => one_le_pow₀ (by norm_num))
    rw [hgeom]
    exact mul_le_mul_of_nonneg_left hsum (mul_nonneg hme (by norm_num))

/-- Claim C8 witness at a concrete valid plan. -/
theorem c8_witness :
    calculateRetirementProjection samplePlan 2025 = Except.ok (mkProjection samplePlan 2025) ∧
    ((samplePlan.inflationAdjusted = false →
      (mkProjection samplePlan 2025).targetWealth =
        samplePlan.monthlyExpenses * 12 *
          ((samplePlan.lifeExpectancy - samplePlan.retirementAge : ℤ) : ℚ)) ∧
    (samplePlan.inflationAdjusted = true →
      (mkProjection samplePlan 2025).targetWealth = samplePlan.monthlyExpenses * 12 *
        (((1 + (0.04 : ℚ)) ^ (samplePlan.lifeExpectancy - samplePlan.retirementAge).toNat - 1) /
          (0.04 : ℚ))) ∧
    (0 ≤ samplePlan.monthlyExpenses →
      samplePlan.monthlyExpenses * 12 *
          ((samplePlan.lifeExpectancy - samplePlan.retirementAge : ℤ) : ℚ) ≤
        samplePlan.monthlyExpenses * 12 *
          (((1 + (0.04 : ℚ)) ^ (samplePlan.lifeExpectancy - samplePlan.retirementAge).toNat - 1) /
            (0.04 : ℚ)))) :=
  ⟨rfl, c8_target_wealth samplePlan 2025 (mkProjection samplePlan 2025) rfl⟩

/-- Claim C9: with monthlyIncome at most 0 the cash-flow calculator
short-circuits to the defensive default record. -/
theorem c9_short_circuit (cf : CashFlow) (h : cf.monthlyIncome ≤ 0) :
    calculateCashFlowMetrics cf =
      { cashFlow := cf
        remainingCash := -(cf.expenses + cf.debt + cf.investments)
        financialHealthScore := 0
        debtToEquityRatio := .fin 0
        savingRatio := 0
        healthCategory := .Poor } := by
  rw [calculateCashFlowMetrics, if_pos h]
  have hrc : -cf.expenses - cf.debt - cf.investments =
      -(cf.expenses + cf.debt + cf.investments) := by ring
  rw [hrc]

/-- Claim C9 witness at a zero-income snapshot. -/
theorem c9_witness :
    sampleZeroIncome.monthlyIncome ≤ 0 ∧
    calculateCashFlowMetrics sampleZeroIncome =
      { cashFlow := sampleZeroIncome
        remainingCash := -(sampleZeroIncome.expenses + sampleZeroIncome.debt +
          sampleZeroIncome.investments)
        financialHealthScore := 0
        debtToEquityRatio := .fin 0
        savingRatio := 0
        healthCategory := .Poor } :=
  ⟨by norm_num [sampleZeroIncome], c9_short_circuit sampleZeroIncome (by norm_num [sampleZeroIncome])⟩

/-- Claim C2 witness at a concrete valid plan. -/
theorem c2_witness :
    calculateRetirementProjection samplePlan 2025 = Except.ok (mkProjection samplePlan 2025) ∧
    ((monthlyRateOf samplePlan = 0 →
      (mkProjection samplePlan 2025).projectedWealth = (mkProjection samplePlan 2025).totalInvested ∧
      (mkProjection samplePlan 2025).totalInvested =
        samplePlan.monthlySavings * 12 *
          ((samplePlan.retirementAge - samplePlan.currentAge : ℤ) : ℚ)) ∧
    (monthlyRateOf samplePlan ≠ 0 →
      (mkProjection samplePlan 2025).projectedWealth =
        samplePlan.monthlySavings *
          (((1 + monthlyRateOf samplePlan) ^
              ((samplePlan.retirementAge - samplePlan.currentAge).toNat * 12) - 1) /
            monthlyRateOf samplePlan) *
          (1 + monthlyRateOf samplePlan))) :=
  ⟨rfl, c2_projected_wealth samplePlan 2025 (mkProjection samplePlan 2025) rfl⟩

/-- Claim C4 counterexample: at income 1000, debt 1 (expenses and
investments 0) the equity is 999, the ratio 1/999 rounds to 0 at two
decimals, so the output is 0 although debt is nonzero, refuting the
stated equivalence that the output is 0 only when debt is 0. -/
theorem c4_counterexample :
    (calculateCashFlowMetrics ⟨1000, 0, 1, 0⟩).debtToEquityRatio = DER.fin 0 ∧
    (⟨1000, 0, 1, 0⟩ : CashFlow).debt ≠ 0 := by
  constructor
  · norm_num [calculateCashFlowMetrics, debtToEquityRatioOf, roundDER, round2, jsRound]
  · norm_num

/-- Claim C4 amended: for snapshots with positive monthlyIncome, the
output debtToEquityRatio is the infinity sentinel exactly when debt is
positive and equity = monthlyIncome - debt is not; it is 0 whenever debt
is 0; and whenever equity is positive it equals debt / equity rounded to
two decimals (which can be 0 for a small positive debt). -/
theorem c4_amended_d2e (cf : CashFlow) (h : 0 < cf.monthlyIncome) :
    ((calculateCashFlowMetrics cf).debtToEquityRatio = DER.inf ↔
      (0 < cf.debt ∧ cf.monthlyIncome - cf.debt ≤ 0)) ∧
    (cf.debt = 0 → (calculateCashFlowMetrics cf).debtToEquityRatio = DER.fin 0) ∧
    (0 < cf.monthlyIncome - cf.debt →
      (calculateCashFlowMetrics cf).debtToEquityRatio =
        DER.fin (round2 (cf.debt / (cf.monthlyIncome - cf.debt)))) := by
  have hni : ¬ cf.monthlyIncome ≤ 0 := not_le.mpr h
  simp only [calculateCashFlowMetrics, if_neg hni]
  by_cases he : 0 < cf.monthlyIncome - cf.debt
  · rw [debtToEquityRatioOf, if_pos he]
    refine ⟨?_, ?_, fun _ => rfl⟩
    · simp only [roundDER]
      constructor
      · intro hx; exact DER.noConfusion hx
      · rintro ⟨_, hx⟩; linarith
    · intro hd
      simp only [roundDER, hd, DER.fin.injEq]
      norm_num [round2, jsRound]
  · have hd : 0 < cf.debt := by
      by_contra hd
      push_neg at hd
      have : cf.monthlyIncome - cf.debt > 0 := by linarith
      exact he this
    rw [debtToEquityRatioOf, if_neg he, if_pos hd]
    refine ⟨?_, ?_, ?_⟩
    · simp only [roundDER]
      exact ⟨fun _ => ⟨hd, by linarith⟩, fun _ => trivial⟩
    · intro hd0; linarith
    · intro hx; exact absurd hx he

/-- Claim C4 amended witness at a concrete snapshot with positive income
and positive equity. -/
theorem c4_witness :
    (0 : ℚ) < sampleCash.monthlyIncome ∧
    (((calculateCashFlowMetrics sampleCash).debtToEquityRatio = DER.inf ↔
      (0 < sampleCash.debt ∧ sampleCash.monthlyIncome - sampleCash.debt ≤ 0)) ∧
    (sampleCash.debt = 0 → (calculateCashFlowMetrics sampleCash).debtToEquityRatio = DER.fin 0) ∧
    (0 < sampleCash.monthlyIncome - sampleCash.debt →
      (calculateCashFlowMetrics sampleCash).debtToEquityRatio =
        DER.fin (round2 (sampleCash.debt / (sampleCash.monthlyIncome - sampleCash.debt))))) :=
  ⟨by norm_num [sampleCash], c4_amended_d2e sampleCash (by norm_num [sampleCash])⟩

/-- Claim C3 counterexample: at income 700, expenses 270, debt 0,
investments 140 the unrounded clamped score is 79.5, rounded to 80, but
the returned category is Good, not the Excellent tier demanded by the
80-threshold on the rounded score. -/
theorem c3_counterexample :
    (calculateCashFlowMetrics ⟨700, 270, 0, 140⟩).financialHealthScore = 80 ∧
    (calculateCashFlowMetrics ⟨700, 270, 0, 140⟩).healthCategory = HealthCategory.Good ∧
    HealthCategory.Good ≠ HealthCategory.Excellent := by
  refine ⟨?_, ?_, by decide⟩
  · norm_num [calculateCashFlowMetrics, rawHealthScore, savingScoreOf, cashScoreOf, deScoreOf,
      debtToEquityRatioOf, deRatioOf, jsRound]
  · norm_num [calculateCashFlowMetrics, rawHealthScore, savingScoreOf, cashScoreOf, deScoreOf,
      debtToEquityRatioOf, deRatioOf, healthCategoryOf]

/-- Claim C3 amended: the output financialHealthScore is an integer in
the interval from 0 to 100; for positive monthlyIncome the category is
determined by the 80/60/40 thresholds applied to the UNROUNDED clamped
score (before output rounding); for nonpositive monthlyIncome it is
Poor. -/
theorem c3_amended_score_category (cf : CashFlow) :
    (0 ≤ (calculateCashFlowMetrics cf).financialHealthScore ∧
      (calculateCashFlowMetrics cf).financialHealthScore ≤ 100) ∧
    (0 < cf.monthlyIncome →
      (calculateCashFlowMetrics cf).healthCategory = healthCategoryOf (rawHealthScore cf)) ∧
    (cf.monthlyIncome ≤ 0 →
      (calculateCashFlowMetrics cf).healthCategory = HealthCategory.Poor) := by
  by_cases h : cf.monthlyIncome ≤ 0
  · simp only [calculateCashFlowMetrics, if_pos h]
    refine ⟨⟨le_refl 0, by norm_num⟩, ?_, fun _ => trivial⟩
    intro h2; linarith
  · simp only [calculateCashFlowMetrics, if_neg h]
    have h1 : 0 ≤ rawHealthScore cf := by
      rw [rawHealthScore]; exact le_max_left _ _
    have h2 : rawHealthScore cf ≤ 100 := by
      rw [rawHealthScore]
      exact max_le (by norm_num) (min_le_left _ _)
    exact ⟨⟨jsRound_nonneg h1, jsRound_le_100 h2⟩, fun _ => trivial, fun hx => absurd hx h⟩

/-- Claim C3 amended witness at a concrete snapshot. -/
theorem c3_witness :
    (0 ≤ (calculateCashFlowMetrics sampleCash).financialHealthScore ∧
      (calculateCashFlowMetrics sampleCash).financialHealthScore ≤ 100) ∧
    (0 < sampleCash.monthlyIncome →
      (calculateCashFlowMetrics sampleCash).healthCategory =
        healthCategoryOf (rawHealthScore sampleCash)) ∧
    (sampleCash.monthlyIncome ≤ 0 →
      (calculateCashFlowMetrics sampleCash).healthCategory = HealthCategory.Poor) :=
  c3_amended_score_category sampleCash

/-- Claim C10: for positive monthlyIncome the category is computed from
the unrounded clamped score; consequently at income 1400, expenses 540,
debt 0, investments 280 the unrounded score is 79.5, the returned score
is 80 — whose tier is Excellent — while the returned category is Good. -/
theorem c10_category_unrounded (cf : CashFlow) (h : 0 < cf.monthlyIncome) :
    (calculateCashFlowMetrics cf).healthCategory = healthCategoryOf (rawHealthScore cf) ∧
    ((calculateCashFlowMetrics ⟨1400, 540, 0, 280⟩).financialHealthScore = 80 ∧
      (calculateCashFlowMetrics ⟨1400, 540, 0, 280⟩).healthCategory = HealthCategory.Good ∧
      healthCategoryOf ((80 : ℤ) : ℚ) = HealthCategory.Excellent) := by
  refine ⟨?_, ?_, ?_, ?_⟩
  · simp only [calculateCashFlowMetrics, if_neg (not_le.mpr h)]
  · norm_num [calculateCashFlowMetrics, rawHealthScore, savingScoreOf, cashScoreOf, deScoreOf,
      debtToEquityRatioOf, deRatioOf, jsRound]
  · norm_num [calculateCashFlowMetrics, rawHealthScore, savingScoreOf, cashScoreOf, deScoreOf,
      debtToEquityRatioOf, deRatioOf, healthCategoryOf]
  · norm_num [healthCategoryOf]

/-- Claim C10 witness at the concrete snapshot itself. -/
theorem c10_witness :
    (0 : ℚ) < (⟨1400, 540, 0, 280⟩ : CashFlow).monthlyIncome ∧
    ((calculateCashFlowMetrics ⟨1400, 540, 0, 280⟩).healthCategory =
        healthCategoryOf (rawHealthScore ⟨1400, 540, 0, 280⟩) ∧
    ((calculateCashFlowMetrics ⟨1400, 540, 0, 280⟩).financialHealthScore = 80 ∧
      (calculateCashFlowMetrics ⟨1400, 540, 0, 280⟩).healthCategory = HealthCategory.Good ∧
      healthCategoryOf ((80 : ℤ) : ℚ) = HealthCategory.Excellent)) :=
  ⟨by norm_num, c10_category_unrounded ⟨1400, 540, 0, 280⟩ (by norm_num)⟩

/-- Claim C7: for a valid plan with nonnegative monthlySavings and
monthlyRate above -1, the unrounded accumulation values are monotonically
non-decreasing across the accumulation phase, and the value at the
retirement age equals projectedWealth. -/
theorem c7_accumulation_mono_matches (p : RetirementPlan) (y : ℤ) (pr : RetirementProjection)
    (h : calculateRetirementProjection p y = Except.ok pr)
    (hms : 0 ≤ p.monthlySavings) (hmr : -1 < monthlyRateOf p) :
    (∀ i j : ℕ, i ≤ j → j ≤ (yearsToRetirementOf p).toNat →
      accumulationWealth p.monthlySavings (monthlyRateOf p) (i * 12) ≤
        accumulationWealth p.monthlySavings (monthlyRateOf p) (j * 12)) ∧
    accumulationWealth p.monthlySavings (monthlyRateOf p) ((yearsToRetirementOf p).toNat * 12) =
      pr.projectedWealth := by
  obtain ⟨h1, h2, rfl⟩ := (calcProj_ok_iff p y pr).mp h
  constructor
  · intro i j hij _
    exact accumulationWealth_mono _ _ hms hmr (Nat.mul_le_mul_right 12 hij)
  · show _ = projectedWealthOf p
    have hY : (yearsToRetirementOf p).toNat * 12 ≠ 0 := by
      rw [yearsToRetirementOf]; omega
    rw [accumulationWealth, if_neg hY, projectedWealthOf, monthsToRetirementOf]
    rcases eq_or_ne (monthlyRateOf p) 0 with hr | hr
    · rw [if_pos hr, if_pos hr, totalInvestedOf, monthsToRetirementOf]
    · rw [if_neg hr, if_neg hr]

/-- Claim C7 witness at a concrete valid plan. -/
theorem c7_witness :
    calculateRetirementProjection samplePlan 2025 = Except.ok (mkProjection samplePlan 2025) ∧
    0 ≤ samplePlan.monthlySavings ∧ -1 < monthlyRateOf samplePlan ∧
    ((∀ i j : ℕ, i ≤ j → j ≤ (yearsToRetirementOf samplePlan).toNat →
      accumulationWealth samplePlan.monthlySavings (monthlyRateOf samplePlan) (i * 12) ≤
        accumulationWealth samplePlan.monthlySavings (monthlyRateOf samplePlan) (j * 12)) ∧
    accumulationWealth samplePlan.monthlySavings (monthlyRateOf samplePlan)
        ((yearsToRetirementOf samplePlan).toNat * 12) =
      (mkProjection samplePlan 2025).projectedWealth) :=
  ⟨rfl, by norm_num [samplePlan], by norm_num [monthlyRateOf, samplePlan],
    c7_accumulation_mono_matches samplePlan 2025 (mkProjection samplePlan 2025) rfl
      (by norm_num [samplePlan]) (by norm_num [monthlyRateOf, samplePlan])⟩

/-- Claim C6: every wealth value emitted in the withdrawal phase is
nonnegative; and with nonnegative monthlyExpenses the running withdrawal
recurrence is absorbing at 0: once it reaches 0 it is 0 at every later
step (the next step compounds the clamped value). -/
theorem c6_withdrawal_floor (p : RetirementPlan) (y : ℤ) (pr : RetirementProjection)
    (h : calculateRetirementProjection p y = Except.ok pr) :
    (∀ pt ∈ pr.wealthTimeline, pt.phase = Phase.withdrawal → 0 ≤ pt.wealth) ∧
    (0 ≤ p.monthlyExpenses → ∀ j k : ℕ, j ≤ k →
      withdrawalWealth (retirementSeed p) (monthlyRateOf p * 12) (p.monthlyExpenses * 12)
          p.inflationAdjusted j = 0 →
      withdrawalWealth (retirementSeed p) (monthlyRateOf p * 12) (p.monthlyExpenses * 12)
          p.inflationAdjusted k = 0) := by
  obtain ⟨h1, h2, rfl⟩ := (calcProj_ok_iff p y pr).mp h
  constructor
  · intro pt hpt hphase
    simp only [mkProjection, generateWealthTimeline, List.mem_append, List.mem_map,
      List.mem_range] at hpt
    rcases hpt with ⟨i, _, hpt⟩ | ⟨j, _, hpt⟩
    · rw [← hpt] at hphase
      exact absurd hphase (by simp [accPoint])
    · rw [← hpt]
      exact jsRound_nonneg (withdrawalWealth_succ_nonneg _ _ _ _ j)
  · intro hme j k hjk h0
    exact withdrawalWealth_absorbing_aux _ _ _ _ (mul_nonneg hme (by norm_num)) hjk h0

/-- Claim C6 witness at a concrete valid plan. -/
theorem c6_witness :
    calculateRetirementProjection samplePlan 2025 = Except.ok (mkProjection samplePlan 2025) ∧
    ((∀ pt ∈ (mkProjection samplePlan 2025).wealthTimeline,
        pt.phase = Phase.withdrawal → 0 ≤ pt.wealth) ∧
    (0 ≤ samplePlan.monthlyExpenses → ∀ j k : ℕ, j ≤ k →
      withdrawalWealth (retirementSeed samplePlan) (monthlyRateOf samplePlan * 12)
          (samplePlan.monthlyExpenses * 12) samplePlan.inflationAdjusted j = 0 →
      withdrawalWealth (retirementSeed samplePlan) (monthlyRateOf samplePlan * 12)
          (samplePlan.monthlyExpenses * 12) samplePlan.inflationAdjusted k = 0)) :=
  ⟨rfl, c6_withdrawal_floor samplePlan 2025 (mkProjection samplePlan 2025) rfl⟩

/-- Claim C5: for every valid plan the wealth timeline has exactly
lifeExpectancy - currentAge + 1 points, the point at index i has age
currentAge + i (so ages ascend from currentAge to lifeExpectancy), with
phase accumulation for every age up to retirementAge inclusive and phase
withdrawal for every later age. -/
theorem c5_timeline_shape (p : RetirementPlan) (y : ℤ) (pr : RetirementProjection)
    (h : calculateRetirementProjection p y = Except.ok pr) :
    pr.wealthTimeline.length = (p.lifeExpectancy - p.currentAge).toNat + 1 ∧
    ∀ i : ℕ, ∀ hi : i < pr.wealthTimeline.length,
      (pr.wealthTimeline.get ⟨i, hi⟩).age = p.currentAge + (i : ℤ) ∧
      (pr.wealthTimeline.get ⟨i, hi⟩).phase =
        (if p.currentAge + (i : ℤ) ≤ p.retirementAge then Phase.accumulation
          else Phase.withdrawal) := by
  obtain ⟨h1, h2, rfl⟩ := (calcProj_ok_iff p y pr).mp h
  have hT : (mkProjection p y).wealthTimeline =
      (List.range ((p.retirementAge - p.currentAge).toNat + 1)).map
          (accPoint p.currentAge p.monthlySavings (monthlyRateOf p) y) ++
        (List.range ((p.lifeExpectancy - p.retirementAge).toNat)).map
          (wPoint p.currentAge p.retirementAge
            (accumulationWealth p.monthlySavings (monthlyRateOf p)
              ((p.retirementAge - p.currentAge).toNat * 12))
            (monthlyRateOf p * 12) (p.monthlyExpenses * 12) p.inflationAdjusted y) := rfl
  constructor
  · rw [hT]
    simp only [List.length_append, List.length_map, List.length_range]
    omega
  · intro i hi
    rw [List.get_eq_getElem]
    by_cases hacc : i < (p.retirementAge - p.currentAge).toNat + 1
    · have hlt : i < ((List.range ((p.retirementAge - p.currentAge).toNat + 1)).map
          (accPoint p.currentAge p.monthlySavings (monthlyRateOf p) y)).length := by
        simpa using hacc
      simp only [hT, List.getElem_append_left hlt, List.getElem_map, List.getElem_range, accPoint]
      refine ⟨trivial, ?_⟩
      rw [if_pos (by omega)]
    · have hge : ((List.range ((p.retirementAge - p.currentAge).toNat + 1)).map
          (accPoint p.currentAge p.monthlySavings (monthlyRateOf p) y)).length ≤ i := by
        simp only [List.length_map, List.length_range]
        omega
      simp only [hT, List.getElem_append_right hge, List.getElem_map, List.getElem_range, wPoint,
        List.length_map, List.length_range]
      refine ⟨by omega, ?_⟩
      rw [if_neg (by omega)]

/-- Claim C5 witness at a concrete valid plan. -/
theorem c5_witness :
    calculateRetirementProjection samplePlan 2025 = Except.ok (mkProjection samplePlan 2025) ∧
    ((mkProjection samplePlan 2025).wealthTimeline.length =
      (samplePlan.lifeExpectancy - samplePlan.currentAge).toNat + 1 ∧
    ∀ i : ℕ, ∀ hi : i < (mkProjection samplePlan 2025).wealthTimeline.length,
      ((mkProjection samplePlan 2025).wealthTimeline.get ⟨i, hi⟩).age =
        samplePlan.currentAge + (i : ℤ) ∧
      ((mkProjection samplePlan 2025).wealthTimeline.get ⟨i, hi⟩).phase =
        (if samplePlan.currentAge + (i : ℤ) ≤ samplePlan.retirementAge then Phase.accumulation
          else Phase.withdrawal)) :=
  ⟨rfl, c5_timeline_shape samplePlan 2025 (mkProjection samplePlan 2025) rfl⟩
